import Mathlib

/-!
Verification of `kedro_datasets/databricks/_base_table_dataset.py`.

This file gives a shallow embedding of the two components of that module:

* `BaseTable` - the frozen dataclass describing a table (format, database,
  catalog, table, write_mode, dataframe_type, owner_group, partition_columns,
  json_schema), together with its `__post_init__` validation loop and the
  derived operations `full_table_location` and `schema`.
* `BaseTableDataset` - the gateway with `_load`, `_save` (write-mode dispatch,
  schema-constrained column projection), `_describe` and `_exists`.

Dataframes are modelled by their column list plus rows of string cells; the
Spark session is modelled as an oracle supplying the results of the engine
calls the code makes (`USE CATALOG`, `SHOW TABLES IN`, reading a table).
Python exceptions are modelled with `Except`.
-/

/-! ## Characters and the naming regular expression

The source declares `_NAMING_REGEX = r"\b[0-9a-zA-Z_-]{1,}\b"` and checks
names with `re.fullmatch`.  `\b` is a word boundary: it matches at a position
iff exactly one of the adjacent characters is a word character (a missing
neighbour, at the ends of the string, counts as a non-word character).
Python word characters include Unicode letters, but every character that the
class `[0-9a-zA-Z_-]` accepts is ASCII, and a string containing a character
outside that class can never fullmatch, so restricting word characters to
ASCII is exact here. -/

/-- Python word character (`\w`), restricted to the ASCII range relevant to
the naming class: letters, digits and underscore. -/
def pyWordChar (c : Char) : Bool :=
  c.isAlphanum || c == '_'

/-- A character of the regex class `[0-9a-zA-Z_-]`. -/
def namingClassChar (c : Char) : Bool :=
  pyWordChar c || c == '-'

/-- Word-character test at position `i` of the string; out-of-range positions
count as non-word (this is how `re` treats the ends of the string). -/
def wordAt (cs : List Char) (i : Nat) : Bool :=
  match cs.get? i with
  | some c => pyWordChar c
  | none => false

/-- The word-boundary predicate `\b` at a position of the string: the
word-ness of the characters on the two sides differs. -/
def boundaryAt (cs : List Char) : Nat → Bool
  | 0 => wordAt cs 0
  | i + 1 => wordAt cs i != wordAt cs (i + 1)

/-- `re.fullmatch(r"\b[0-9a-zA-Z_-]{1,}\b", s) is not None`.  The two
anchors are zero-width, so the class must consume the entire string: the
match succeeds iff `\b` holds at position 0, every character is in the
class, the string is non-empty, and `\b` holds at the end. -/
def namingFullmatch (s : String) : Bool :=
  boundaryAt s.toList 0 && s.toList.all namingClassChar &&
    decide (1 ≤ s.toList.length) && boundaryAt s.toList s.toList.length

/-! ## Spark schema (`StructType`)

`BaseTable.json_schema` holds the JSON form of a Spark schema and
`BaseTable.schema` decodes it with `StructType.fromJson`.  The JSON value is
modelled as its already-parsed structured form; decode failures
(`KeyError`/`ValueError` re-raised as `DatasetError`) are outside the claims
considered here.  The only operation used downstream is `fieldNames`. -/

/-- One field of a Spark `StructType`: a name and a (opaque) data type. -/
structure StructField where
  name : String
  dataType : String
deriving DecidableEq

/-- A Spark `StructType`: an ordered list of fields. -/
structure StructType where
  fields : List StructField
deriving DecidableEq

/-- `StructType.fieldNames()`: the field names, in schema order. -/
def StructType.fieldNames (st : StructType) : List String :=
  st.fields.map (fun f => f.name)

/-! ## Errors -/

/-- The distinct `DatasetError` conditions raised by the module.  The source
raises a single `DatasetError` exception class with a message string; the
constructors here correspond one-to-one to the distinct raise sites. -/
inductive DatasetError where
  | invalidFormat (format : String)
  | invalidTableName
  | invalidDatabaseName
  | invalidCatalogName
  | invalidWriteMode (mode : String)
  | invalidDataframeType
  | readOnly
  | unsupportedWriteMode (mode : String)
deriving DecidableEq

/-! ## The `BaseTable` dataclass -/

/-- The `ClassVar` constant `_VALID_WRITE_MODES = ["overwrite", "append"]`. -/
def VALID_WRITE_MODES : List String := ["overwrite", "append"]

/-- The `ClassVar` constant `_VALID_DATAFRAME_TYPES = ["spark", "pandas"]`. -/
def VALID_DATAFRAME_TYPES : List String := ["spark", "pandas"]

/-- The `ClassVar` constant `_VALID_FORMATS = ["delta", "parquet", "csv"]`. -/
def VALID_FORMATS : List String := ["delta", "parquet", "csv"]

/-- The frozen dataclass `BaseTable`, with its fields in declaration order.
`partition_columns` is declared as `str | list[str] | None` in the source but
only ever receives `list[str] | None` from the dataset constructor; it is
unused by the core logic apart from `_describe`. -/
structure BaseTable where
  format : String
  database : String
  catalog : Option String
  table : String
  write_mode : Option String
  dataframe_type : String
  owner_group : Option String
  partition_columns : Option (List String)
  json_schema : Option StructType := none
deriving DecidableEq

/-- Python truthiness of an optional string (`if self.catalog:`): `None` and
the empty string are falsy. -/
def pyTruthy : Option String → Bool
  | none => false
  | some s => !(s == "")

/-- `BaseTable._validate_format`: the format must be one of
`_VALID_FORMATS`. -/
def BaseTable.validate_format (t : BaseTable) : Except DatasetError Unit :=
  if VALID_FORMATS.contains t.format then Except.ok ()
  else Except.error (DatasetError.invalidFormat t.format)

/-- `BaseTable._validate_table`: the table name must fullmatch the naming
regex. -/
def BaseTable.validate_table (t : BaseTable) : Except DatasetError Unit :=
  if namingFullmatch t.table then Except.ok ()
  else Except.error DatasetError.invalidTableName

/-- `BaseTable._validate_database`: the database name must fullmatch the
naming regex. -/
def BaseTable.validate_database (t : BaseTable) : Except DatasetError Unit :=
  if namingFullmatch t.database then Except.ok ()
  else Except.error DatasetError.invalidDatabaseName

/-- `BaseTable._validate_catalog`: checked only when the catalog is truthy
(`if self.catalog:`), so `None` and the empty string pass. -/
def BaseTable.validate_catalog (t : BaseTable) : Except DatasetError Unit :=
  if pyTruthy t.catalog then
    if namingFullmatch (t.catalog.getD "") then Except.ok ()
    else Except.error DatasetError.invalidCatalogName
  else Except.ok ()

/-- `BaseTable._validate_write_mode`: a non-`None` write mode must be one of
`_VALID_WRITE_MODES`. -/
def BaseTable.validate_write_mode (t : BaseTable) : Except DatasetError Unit :=
  match t.write_mode with
  | none => Except.ok ()
  | some m =>
    if VALID_WRITE_MODES.contains m then Except.ok ()
    else Except.error (DatasetError.invalidWriteMode m)

/-- `BaseTable._validate_dataframe_type`: the dataframe type must be one of
`_VALID_DATAFRAME_TYPES`. -/
def BaseTable.validate_dataframe_type (t : BaseTable) : Except DatasetError Unit :=
  if VALID_DATAFRAME_TYPES.contains t.dataframe_type then Except.ok ()
  else Except.error DatasetError.invalidDataframeType

/-- The keys of `BaseTable.__dataclass_fields__`, in declaration order.
`__dataclass_fields__` includes the `ClassVar` pseudo-fields, which have no
matching validator.  `_validate_primary_key` exists as a method but
`primary_key` is not a dataclass field of `BaseTable`, so the loop never
invokes it. -/
def dataclassFieldKeys : List String :=
  ["_NAMING_REGEX", "_VALID_WRITE_MODES", "_VALID_DATAFRAME_TYPES",
   "_VALID_FORMATS", "format", "database", "catalog", "table",
   "write_mode", "dataframe_type", "owner_group", "partition_columns",
   "json_schema"]

/-- `getattr(self, f"_validate_{name}", None)`: the validator method for a
dataclass field key, when one is declared. -/
def lookupValidator (t : BaseTable) (name : String) :
    Option (Except DatasetError Unit) :=
  if name == "format" then some t.validate_format
  else if name == "table" then some t.validate_table
  else if name == "database" then some t.validate_database
  else if name == "catalog" then some t.validate_catalog
  else if name == "write_mode" then some t.validate_write_mode
  else if name == "dataframe_type" then some t.validate_dataframe_type
  else none

/-- The `__post_init__` loop over a list of field keys: call each declared
validator in order, stopping at the first raised error.  On success, the
returned list records the names whose validators ran, in execution order. -/
def runValidations (t : BaseTable) : List String → Except DatasetError (List String)
  | [] => Except.ok []
  | n :: ns =>
    match lookupValidator t n with
    | none => runValidations t ns
    | some (Except.error e) => Except.error e
    | some (Except.ok _) =>
      match runValidations t ns with
      | Except.error e => Except.error e
      | Except.ok tr => Except.ok (n :: tr)

/-- `BaseTable.__post_init__`: run the validators for all dataclass fields in
declaration order. -/
def BaseTable.post_init (t : BaseTable) : Except DatasetError (List String) :=
  runValidations t dataclassFieldKeys

/-- All violations over a list of field keys, computed without
short-circuiting: the errors every declared validator would raise, in field
order.  Used to state that `__post_init__` fails with the earliest one. -/
def violationsOver (t : BaseTable) (ns : List String) : List DatasetError :=
  ns.filterMap (fun n =>
    match lookupValidator t n with
    | some (Except.error e) => some e
    | _ => none)

/-- The violations of all declared validators, in field-declaration order. -/
def fieldViolations (t : BaseTable) : List DatasetError :=
  violationsOver t dataclassFieldKeys

/-- The field keys of a list that have a declared validator. -/
def presentNames (t : BaseTable) (ns : List String) : List String :=
  ns.filter (fun n => (lookupValidator t n).isSome)

/-- `BaseTable.full_table_location`: the backtick-quoted dot-joined location,
following the source's truthiness tests (`if self.catalog and self.database
and self.table: ... elif self.database and self.table: ...`). -/
def BaseTable.full_table_location (t : BaseTable) : Option String :=
  if pyTruthy t.catalog && !(t.database == "") && !(t.table == "") then
    some ("`" ++ t.catalog.getD "" ++ "`.`" ++ t.database ++ "`.`" ++
      t.table ++ "`")
  else if !(t.database == "") && !(t.table == "") then
    some ("`" ++ t.database ++ "`.`" ++ t.table ++ "`")
  else none

/-- `BaseTable.schema`: decode `json_schema` when present.  The JSON value is
modelled as already parsed, so the decode itself cannot fail here. -/
def BaseTable.schema (t : BaseTable) : Option StructType :=
  t.json_schema

/-! ## Dataframes

A dataframe is modelled by its ordered column names and its rows; each row is
a list of string cells aligned with the columns.  A `PyDataFrame` value also
records which runtime representation it has (Spark or pandas): the source
performs no type checks, so an operation applied to the wrong representation
raises at that call site - modelled as an engine error. -/

/-- A Spark dataframe: ordered columns, rows of cells aligned with them. -/
structure SparkDataFrame where
  cols : List String
  rows : List (List String)
deriving DecidableEq

/-- A pandas dataframe, same shape. -/
structure PandasDataFrame where
  cols : List String
  rows : List (List String)
deriving DecidableEq

/-- A runtime dataframe value: either representation. -/
inductive PyDataFrame where
  | spark (df : SparkDataFrame)
  | pandas (df : PandasDataFrame)
deriving DecidableEq

/-- The columns of either representation. -/
def PyDataFrame.cols : PyDataFrame → List String
  | PyDataFrame.spark df => df.cols
  | PyDataFrame.pandas df => df.cols

/-- The rows of either representation. -/
def PyDataFrame.rows : PyDataFrame → List (List String)
  | PyDataFrame.spark df => df.rows
  | PyDataFrame.pandas df => df.rows

/-- Whether the value is a pandas dataframe. -/
def PyDataFrame.isPandasDF : PyDataFrame → Bool
  | PyDataFrame.spark _ => false
  | PyDataFrame.pandas _ => true

/-- Whether a runtime dataframe value matches the configured
`dataframe_type` (the representation the caller is supposed to pass). -/
def typeMatches (t : BaseTable) : PyDataFrame → Bool
  | PyDataFrame.spark _ => !(t.dataframe_type == "pandas")
  | PyDataFrame.pandas _ => t.dataframe_type == "pandas"

/-- Project one row onto a selection of column names: for each selected name,
the cell under the first column with that name. -/
def projectRow (cols : List String) (row : List String) (sel : List String) :
    List String :=
  sel.map (fun c =>
    match cols.findIdx? (fun x => x == c) with
    | some i => row.getD i ""
    | none => "")

/-- Spark `df.select(*cols)`: the selected columns in the requested order;
raises `AnalysisException` (here `none`) if a requested column is absent. -/
def SparkDataFrame.select (df : SparkDataFrame) (sel : List String) :
    Option SparkDataFrame :=
  if sel.all (fun c => df.cols.contains c) then
    some ⟨sel, df.rows.map (fun r => projectRow df.cols r sel)⟩
  else none

/-- Pandas `df.loc[:, cols]`: the selected columns in the requested order;
raises `KeyError` (here `none`) if a requested column is absent. -/
def PandasDataFrame.loc (df : PandasDataFrame) (sel : List String) :
    Option PandasDataFrame :=
  if sel.all (fun c => df.cols.contains c) then
    some ⟨sel, df.rows.map (fun r => projectRow df.cols r sel)⟩
  else none

/-! ## The gateway: `BaseTableDataset` -/

/-- An engine call made by `_save` before the terminal write: a
`spark.createDataFrame(...)` call, recording the source columns and the field
names of the explicit schema argument, when one is passed. -/
inductive PreCall where
  | createDF (srcCols : List String) (schemaNames : Option (List String))
deriving DecidableEq

/-- The terminal `data.write....saveAsTable(...)` call of a save: the
format, the save mode, the writer options set, the target location and the
dataframe written. -/
structure WriteCall where
  fmt : String
  mode : String
  options : List (String × String)
  location : String
  data : SparkDataFrame
deriving DecidableEq

/-- The observable outcome of a successful `_save`: the engine calls made
before the write, then the write itself. -/
structure SaveResult where
  preCalls : List PreCall
  write : WriteCall
deriving DecidableEq

/-- An error escaping `_save`: either a `DatasetError` raised by the module
itself, or an exception from the dataframe/engine layer (`KeyError`,
`AnalysisException`, `AttributeError`), which the module does not catch. -/
inductive SaveError where
  | datasetError (e : DatasetError)
  | engineError
deriving DecidableEq

/-- `spark.createDataFrame(pandas_df)` with no schema: inferred typing, the
pandas columns carried over unchanged. -/
def createDataFrameNoSchema (p : PandasDataFrame) : SparkDataFrame :=
  ⟨p.cols, p.rows⟩

/-- `spark.createDataFrame(pandas_df, schema=st)`: the schema's field names
become the columns; the (projected) pandas data is taken positionally. -/
def createDataFrameWithSchema (p : PandasDataFrame) (st : StructType) :
    SparkDataFrame :=
  ⟨st.fieldNames, p.rows⟩

/-- `BaseTableDataset._save_append`: write in append mode at the configured
format to the full table location.  Applied to a pandas value this would
fail at `data.write` - an uncaught attribute error. -/
def BaseTableDataset.save_append (t : BaseTable) (data : PyDataFrame) :
    Except SaveError WriteCall :=
  match data with
  | PyDataFrame.spark df =>
    Except.ok ⟨t.format, "append", [], (t.full_table_location).getD "", df⟩
  | PyDataFrame.pandas _ => Except.error SaveError.engineError

/-- `BaseTableDataset._save_overwrite`: write at the configured format; when
`write_mode == "overwrite"` the writer is put in overwrite mode with the
`overwriteSchema` option enabled, otherwise Spark's default save mode
(`errorifexists`) applies.  Applied to a pandas value this would fail at
`data.write`. -/
def BaseTableDataset.save_overwrite (t : BaseTable) (data : PyDataFrame) :
    Except SaveError WriteCall :=
  match data with
  | PyDataFrame.spark df =>
    if t.write_mode == some "overwrite" then
      Except.ok ⟨t.format, "overwrite", [("overwriteSchema", "true")],
        (t.full_table_location).getD "", df⟩
    else
      Except.ok ⟨t.format, "errorifexists", [],
        (t.full_table_location).getD "", df⟩
  | PyDataFrame.pandas _ => Except.error SaveError.engineError

/-- `getattr(self, f"_save_{write_mode}", None)`: the write-mode handler
looked up by name. -/
def lookupSaveMethod (t : BaseTable) (mode : String) :
    Option (PyDataFrame → Except SaveError WriteCall) :=
  if mode == "append" then some (BaseTableDataset.save_append t)
  else if mode == "overwrite" then some (BaseTableDataset.save_overwrite t)
  else none

/-- The no-schema arm of `_save`: when `dataframe_type == "pandas"`, build a
Spark dataframe from the pandas one with inferred typing and no column
filtering (`spark.createDataFrame(data)`); otherwise leave the data
untouched. -/
def saveNoSchemaStep (t : BaseTable) (data : PyDataFrame) :
    Except SaveError (List PreCall × PyDataFrame) :=
  if t.dataframe_type == "pandas" then
    match data with
    | PyDataFrame.pandas p =>
      Except.ok ([PreCall.createDF p.cols none],
        PyDataFrame.spark (createDataFrameNoSchema p))
    | PyDataFrame.spark _ => Except.error SaveError.engineError
  else Except.ok ([], data)

/-- The schema-projection part of `_save`: `if schema:` (a `StructType` with
no fields is falsy in Python, so an empty schema behaves as no schema),
project the data to the schema's field names - pandas: `data.loc[:, cols]`
then `spark.createDataFrame(..., schema=...)`; Spark: `data.select(*cols)` -
else fall through to the no-schema arm. -/
def saveDataframeStep (t : BaseTable) (data : PyDataFrame) :
    Except SaveError (List PreCall × PyDataFrame) :=
  match t.schema with
  | some st =>
    if st.fields.isEmpty then saveNoSchemaStep t data
    else
      let cols := st.fieldNames
      if t.dataframe_type == "pandas" then
        match data with
        | PyDataFrame.pandas p =>
          match p.loc cols with
          | some p2 =>
            Except.ok ([PreCall.createDF p2.cols (some st.fieldNames)],
              PyDataFrame.spark (createDataFrameWithSchema p2 st))
          | none => Except.error SaveError.engineError
        | PyDataFrame.spark _ => Except.error SaveError.engineError
      else
        match data with
        | PyDataFrame.spark s =>
          match s.select cols with
          | some s2 => Except.ok ([], PyDataFrame.spark s2)
          | none => Except.error SaveError.engineError
        | PyDataFrame.pandas _ => Except.error SaveError.engineError
  | none => saveNoSchemaStep t data

/-- `BaseTableDataset._save`: refuse in read-only mode, project/convert the
dataframe, look up the write-mode handler by name, and invoke it. -/
def BaseTableDataset.save (t : BaseTable) (data : PyDataFrame) :
    Except SaveError SaveResult :=
  match t.write_mode with
  | none => Except.error (SaveError.datasetError DatasetError.readOnly)
  | some wm =>
    match saveDataframeStep t data with
    | Except.error e => Except.error e
    | Except.ok (pre, df) =>
      match lookupSaveMethod t wm with
      | none =>
        Except.error (SaveError.datasetError
          (DatasetError.unsupportedWriteMode wm))
      | some handler =>
        match handler df with
        | Except.error e => Except.error e
        | Except.ok w => Except.ok ⟨pre, w⟩

/-- `BaseTableDataset._load`: read the table at the full table location
(`tableContents` stands for what `spark.table(...)` returns) and convert to
pandas iff `dataframe_type == "pandas"`; no column projection. -/
def BaseTableDataset.load (t : BaseTable) (tableContents : SparkDataFrame) :
    PyDataFrame :=
  if t.dataframe_type == "pandas" then
    PyDataFrame.pandas ⟨tableContents.cols, tableContents.rows⟩
  else PyDataFrame.spark tableContents

/-! ## Existence check -/

/-- The catchable Spark exceptions on the `_exists` path: `ParseException`
and `AnalysisException` from `pyspark.sql.utils`. -/
inductive SparkException where
  | parseException
  | analysisException
deriving DecidableEq

/-- The Spark session as an oracle for the two queries `_exists` issues: the
outcome of `USE CATALOG` for a catalog name, and the `tableName` column of
`SHOW TABLES IN` for a database name. -/
structure SparkSession where
  useCatalog : String → Except SparkException Unit
  showTables : String → Except SparkException (List String)

/-- `BaseTableDataset._exists`: when the catalog is truthy, attempt
`USE CATALOG` and swallow `ParseException`/`AnalysisException` (logged only);
then `SHOW TABLES IN` the database, filter rows whose `tableName` equals the
table, and return whether any matched - a query failure
(`ParseException`/`AnalysisException`) yields `false`. -/
def BaseTableDataset.tableExists (t : BaseTable) (spark : SparkSession) :
    Bool :=
  let _catalogStep : Except SparkException Unit :=
    match t.catalog with
    | some c => if c == "" then Except.ok () else spark.useCatalog c
    | none => Except.ok ()
  match spark.showTables t.database with
  | Except.ok rows =>
    decide (0 < (rows.filter (fun n => n == t.table)).length)
  | Except.error _ => false

/-! ## Description -/

/-- A value appearing in the `_describe` dictionary. -/
inductive DescribeValue where
  | str (s : String)
  | strList (l : List String)
  | null
deriving DecidableEq

/-- Encode an optional string the way `_describe` reports it. -/
def DescribeValue.ofOptStr : Option String → DescribeValue
  | none => DescribeValue.null
  | some s => DescribeValue.str s

/-- Encode optional partition columns the way `_describe` reports them. -/
def DescribeValue.ofOptList : Option (List String) → DescribeValue
  | none => DescribeValue.null
  | some l => DescribeValue.strList l

/-- Insert one key into a Python dict modelled as an insertion-ordered
association list: an existing key keeps its position and gets the new value,
a new key is appended. -/
def dictInsert {V : Type} (d : List (String × V)) (k : String) (v : V) :
    List (String × V) :=
  if d.any (fun p => p.1 == k) then
    d.map (fun p => if p.1 == k then (k, v) else p)
  else d ++ [(k, v)]

/-- Merge `updates` into `base` left to right, as the dict display
`{..., **kwargs}` does: later entries shadow earlier ones. -/
def dictUpdate {V : Type} (base updates : List (String × V)) :
    List (String × V) :=
  updates.foldl (fun acc kv => dictInsert acc kv.1 kv.2) base

/-- Dict lookup: the value of the first entry with the given key. -/
def dictGet {V : Type} (d : List (String × V)) (k : String) : Option V :=
  (d.find? (fun p => p.1 == k)).map (fun p => p.2)

/-- The fixed entries of the `_describe` dict display, in source order. -/
def describePairs (t : BaseTable) : List (String × DescribeValue) :=
  [("catalog", DescribeValue.ofOptStr t.catalog),
   ("database", DescribeValue.str t.database),
   ("table", DescribeValue.str t.table),
   ("write_mode", DescribeValue.ofOptStr t.write_mode),
   ("dataframe_type", DescribeValue.str t.dataframe_type),
   ("owner_group", DescribeValue.ofOptStr t.owner_group),
   ("partition_columns", DescribeValue.ofOptList t.partition_columns)]

/-- `BaseTableDataset._describe`: the fixed entries with `**self.kwargs`
merged last. -/
def BaseTableDataset.describe (t : BaseTable)
    (kwargs : List (String × DescribeValue)) : List (String × DescribeValue) :=
  dictUpdate (describePairs t) kwargs


/-! ## Sample configurations and inputs used in concrete checks -/

deriving instance DecidableEq for Except

/-- A valid sample configuration. -/
def sampleTable : BaseTable :=
  { format := "delta", database := "default", catalog := some "main",
    table := "features", write_mode := some "overwrite",
    dataframe_type := "spark", owner_group := none,
    partition_columns := none, json_schema := none }

/-- The sample configuration with a given table name and no catalog. -/
def tableNamed (s : String) : BaseTable :=
  { sampleTable with catalog := none, table := s }

/-- The sample configuration with a given database name and no catalog. -/
def databaseNamed (s : String) : BaseTable :=
  { sampleTable with catalog := none, database := s }

/-- A schema listing the field names a, b. -/
def schemaAB : StructType :=
  ⟨[⟨"a", "string"⟩, ⟨"b", "string"⟩]⟩

/-- A Spark dataframe with columns a, b, c. -/
def sparkABC : SparkDataFrame :=
  ⟨["a", "b", "c"], [["1", "2", "3"], ["4", "5", "6"]]⟩

/-- A pandas dataframe with columns a, b, c. -/
def pandasABC : PandasDataFrame :=
  ⟨["a", "b", "c"], [["1", "2", "3"], ["4", "5", "6"]]⟩

/-- The sample configuration with the a, b schema (Spark dataframes). -/
def tableSparkAB : BaseTable :=
  { sampleTable with json_schema := some schemaAB }

/-- The sample configuration with the a, b schema (pandas dataframes). -/
def tablePandasAB : BaseTable :=
  { sampleTable with dataframe_type := "pandas", json_schema := some schemaAB }

/-- The sample configuration with pandas dataframes and no schema. -/
def tablePandasNoSchema : BaseTable :=
  { sampleTable with dataframe_type := "pandas" }

/-- The sample configuration in read-only mode (no write mode). -/
def tableReadOnly : BaseTable :=
  { sampleTable with write_mode := none }

/-- The sample configuration with the write mode upsert, which the base
validator rejects. -/
def tableUpsert : BaseTable :=
  { sampleTable with write_mode := some "upsert" }

/-- A sample configuration bag whose first key collides with a fixed
describe key. -/
def kwargsSample : List (String × DescribeValue) :=
  [("write_mode", DescribeValue.str "shadowed"),
   ("version", DescribeValue.str "7")]

/-- A configuration invalid in two fields at once: a bad format (declared
first) and a bad table name. -/
def tableDoublyBad : BaseTable :=
  { sampleTable with format := "orc", table := "bad name" }

/-- A session whose catalog switch fails but whose table listing for the
default database contains the sample table. -/
def sessionCatalogFails : SparkSession :=
  ⟨fun _ => Except.error SparkException.analysisException,
   fun db =>
     if db == "default" then Except.ok ["features", "other"]
     else Except.error SparkException.analysisException⟩

/-- A session where listing tables fails (the database does not exist). -/
def sessionDbMissing : SparkSession :=
  ⟨fun _ => Except.ok (), fun _ => Except.error SparkException.analysisException⟩

/-! ## Validation loop: first-violation semantics -/

lemma runValidations_spec (t : BaseTable) (ns : List String) :
    runValidations t ns =
      match (violationsOver t ns).head? with
      | some e => Except.error e
      | none => Except.ok (presentNames t ns) := by
  induction ns with
  | nil => rfl
  | cons n ns ih =>
    cases hl : lookupValidator t n with
    | none =>
      simpa [runValidations, violationsOver, presentNames, hl,
        List.filterMap_cons, List.filter_cons] using ih
    | some r =>
      cases r with
      | error e =>
        simp [runValidations, violationsOver, presentNames, hl,
          List.filterMap_cons, List.filter_cons]
      | ok u =>
        have hvo : violationsOver t (n :: ns) = violationsOver t ns := by
          simp [violationsOver, List.filterMap_cons, hl]
        have hpn : presentNames t (n :: ns) = n :: presentNames t ns := by
          simp [presentNames, List.filter_cons, hl]
        rw [hvo, hpn]
        simp only [runValidations, hl]
        rw [ih]
        cases hv : (violationsOver t ns).head? <;> simp [hv]

lemma presentNames_keys (t : BaseTable) :
    presentNames t dataclassFieldKeys =
      ["format", "database", "catalog", "table", "write_mode",
       "dataframe_type"] := rfl

lemma post_init_error_iff (t : BaseTable) (e : DatasetError) :
    t.post_init = Except.error e ↔ (fieldViolations t).head? = some e := by
  rw [BaseTable.post_init, runValidations_spec]
  rw [fieldViolations] at *
  cases hv : (violationsOver t dataclassFieldKeys).head? <;> simp [hv]

lemma post_init_ok_elim (t : BaseTable) (tr : List String)
    (h : t.post_init = Except.ok tr) :
    fieldViolations t = [] ∧
      tr = ["format", "database", "catalog", "table", "write_mode",
        "dataframe_type"] := by
  rw [BaseTable.post_init, runValidations_spec] at h
  rw [fieldViolations]
  cases hv : (violationsOver t dataclassFieldKeys).head? with
  | some e => rw [hv] at h; simp at h
  | none =>
    rw [hv] at h
    simp only [Except.ok.injEq] at h
    refine ⟨List.head?_eq_none_iff.mp hv, ?_⟩
    rw [← h, presentNames_keys]

lemma post_init_ok_of_violations_nil (t : BaseTable)
    (h : fieldViolations t = []) :
    t.post_init = Except.ok
      ["format", "database", "catalog", "table", "write_mode",
       "dataframe_type"] := by
  rw [BaseTable.post_init, runValidations_spec]
  rw [fieldViolations] at h
  rw [h]
  simp [presentNames_keys]

lemma validators_ok_of_violations_nil (t : BaseTable)
    (h : fieldViolations t = []) :
    t.validate_format = Except.ok () ∧ t.validate_database = Except.ok () ∧
    t.validate_catalog = Except.ok () ∧ t.validate_table = Except.ok () ∧
    t.validate_write_mode = Except.ok () ∧
    t.validate_dataframe_type = Except.ok () := by
  rw [fieldViolations, violationsOver, List.filterMap_eq_nil_iff] at h
  refine ⟨?_, ?_, ?_, ?_, ?_, ?_⟩
  · have hf := h "format" (by simp [dataclassFieldKeys])
    simp only [lookupValidator] at hf
    cases hx : t.validate_format with
    | error e => rw [hx] at hf; simp at hf
    | ok u => cases u; rfl
  · have hf := h "database" (by simp [dataclassFieldKeys])
    simp only [lookupValidator] at hf
    cases hx : t.validate_database with
    | error e => rw [hx] at hf; simp at hf
    | ok u => cases u; rfl
  · have hf := h "catalog" (by simp [dataclassFieldKeys])
    simp only [lookupValidator] at hf
    cases hx : t.validate_catalog with
    | error e => rw [hx] at hf; simp at hf
    | ok u => cases u; rfl
  · have hf := h "table" (by simp [dataclassFieldKeys])
    simp only [lookupValidator] at hf
    cases hx : t.validate_table with
    | error e => rw [hx] at hf; simp at hf
    | ok u => cases u; rfl
  · have hf := h "write_mode" (by simp [dataclassFieldKeys])
    simp only [lookupValidator] at hf
    cases hx : t.validate_write_mode with
    | error e => rw [hx] at hf; simp at hf
    | ok u => cases u; rfl
  · have hf := h "dataframe_type" (by simp [dataclassFieldKeys])
    simp only [lookupValidator] at hf
    cases hx : t.validate_dataframe_type with
    | error e => rw [hx] at hf; simp at hf
    | ok u => cases u; rfl

/-! ## The naming regex characterized -/

lemma wordAt_cons_succ (c : Char) (tl : List Char) (i : Nat) :
    wordAt (c :: tl) (i + 1) = wordAt tl i := rfl

lemma boundaryAt_eq_last : ∀ cs : List Char, cs ≠ [] →
    boundaryAt cs cs.length = pyWordChar (cs.getLastD ' ')
  | [c], _ => by cases h : pyWordChar c <;> simp [boundaryAt, wordAt, h]
  | c :: d :: rest, _ => by
    have ih := boundaryAt_eq_last (d :: rest) (by simp)
    simp only [List.length_cons, List.getLastD_cons] at ih ⊢
    rw [boundaryAt] at ih ⊢
    rw [wordAt_cons_succ, wordAt_cons_succ]
    exact ih

lemma namingFullmatch_iff (s : String) :
    namingFullmatch s = true ↔
      (s.toList ≠ [] ∧ s.toList.all namingClassChar = true ∧
       pyWordChar (s.toList.headD ' ') = true ∧
       pyWordChar (s.toList.getLastD ' ') = true) := by
  rw [namingFullmatch]
  cases hcs : s.toList with
  | nil => simp [boundaryAt, wordAt]
  | cons c tl =>
    have hb0 : boundaryAt (c :: tl) 0 = pyWordChar c := rfl
    have hbe := boundaryAt_eq_last (c :: tl) (by simp)
    simp only [Bool.and_eq_true, hb0, hbe, List.headD_cons]
    constructor
    · rintro ⟨⟨⟨h1, h2⟩, h3⟩, h4⟩
      exact ⟨by simp, h2, h1, h4⟩
    · rintro ⟨h1, h2, h3, h4⟩
      exact ⟨⟨⟨h3, h2⟩, by simp⟩, h4⟩

lemma namingFullmatch_ne_empty (s : String) (h : namingFullmatch s = true) :
    ¬(s = "") := by
  intro hs
  have := (namingFullmatch_iff s).mp h
  rw [hs] at this
  exact this.1 rfl

lemma validate_table_iff (t : BaseTable) :
    t.validate_table = Except.ok () ↔ namingFullmatch t.table = true := by
  rw [BaseTable.validate_table]; split <;> simp_all

lemma validate_database_iff (t : BaseTable) :
    t.validate_database = Except.ok () ↔ namingFullmatch t.database = true := by
  rw [BaseTable.validate_database]; split <;> simp_all

/-! ## Save-path helper lemmas -/

lemma saveDataframeStep_error_eq (t : BaseTable) (data : PyDataFrame)
    (e : SaveError) (h : saveDataframeStep t data = Except.error e) :
    e = SaveError.engineError := by
  unfold saveDataframeStep saveNoSchemaStep at h
  cases hs : t.schema with
  | none =>
    rw [hs] at h
    by_cases hp : t.dataframe_type = "pandas" <;> cases data <;> simp_all
  | some st =>
    rw [hs] at h
    by_cases hemp : st.fields.isEmpty
    · simp only [hemp, if_true] at h
      by_cases hp : t.dataframe_type = "pandas" <;> cases data <;> simp_all
    · by_cases hp : t.dataframe_type = "pandas"
      · cases data with
        | spark s => simp_all
        | pandas p =>
          rcases hl : p.loc st.fieldNames with _ | p2 <;> simp_all
      · cases data with
        | pandas p => simp_all
        | spark s =>
          rcases hl : s.select st.fieldNames with _ | s2 <;> simp_all

lemma save_handler_error_eq (t : BaseTable) (wm : String)
    (f : PyDataFrame → Except SaveError WriteCall)
    (hf : lookupSaveMethod t wm = some f) (data : PyDataFrame) (e : SaveError)
    (h : f data = Except.error e) : e = SaveError.engineError := by
  unfold lookupSaveMethod at hf
  split at hf
  · cases hf
    cases data <;> simp_all [BaseTableDataset.save_append]
  · split at hf
    · cases hf
      cases data with
      | spark df =>
        rw [BaseTableDataset.save_overwrite] at h
        split at h <;> simp_all
      | pandas df => simp_all [BaseTableDataset.save_overwrite]
    · cases hf

lemma lookup_handler_spark (t : BaseTable) (wm : String) (df : SparkDataFrame)
    (hv : wm = "overwrite" ∨ wm = "append") :
    ∃ f w, lookupSaveMethod t wm = some f ∧
      f (PyDataFrame.spark df) = Except.ok w ∧ w.data = df := by
  rcases hv with rfl | rfl
  · refine ⟨BaseTableDataset.save_overwrite t, ?_⟩
    by_cases hc : t.write_mode == some "overwrite"
    · exact ⟨⟨t.format, "overwrite", [("overwriteSchema", "true")],
        (t.full_table_location).getD "", df⟩, rfl,
        by simp [BaseTableDataset.save_overwrite, hc], rfl⟩
    · exact ⟨⟨t.format, "errorifexists", [],
        (t.full_table_location).getD "", df⟩, rfl,
        by simp [BaseTableDataset.save_overwrite, hc], rfl⟩
  · exact ⟨BaseTableDataset.save_append t,
      ⟨t.format, "append", [], (t.full_table_location).getD "", df⟩,
      rfl, rfl, rfl⟩

lemma saveDataframeStep_schema (t : BaseTable) (st : StructType)
    (data : PyDataFrame)
    (hsch : t.json_schema = some st) (hne : st.fields.isEmpty = false)
    (hdt : t.dataframe_type = "spark" ∨ t.dataframe_type = "pandas")
    (hty : typeMatches t data = true)
    (hsub : st.fieldNames.all (fun c => data.cols.contains c) = true) :
    ∃ pre rows2, saveDataframeStep t data =
      Except.ok (pre, PyDataFrame.spark ⟨st.fieldNames, rows2⟩) := by
  rcases hdt with hdt | hdt
  · cases data with
    | pandas p => exfalso; simp [typeMatches, hdt] at hty
    | spark s =>
      simp only [PyDataFrame.cols] at hsub
      have hsel : s.select st.fieldNames = some
          ⟨st.fieldNames, s.rows.map (fun r => projectRow s.cols r st.fieldNames)⟩ := by
        rw [SparkDataFrame.select, if_pos hsub]
      refine ⟨[], s.rows.map (fun r => projectRow s.cols r st.fieldNames), ?_⟩
      simp [saveDataframeStep, BaseTable.schema, hsch, hne, hdt, hsel]
  · cases data with
    | spark s => exfalso; simp [typeMatches, hdt] at hty
    | pandas p =>
      simp only [PyDataFrame.cols] at hsub
      have hsel : p.loc st.fieldNames = some
          ⟨st.fieldNames, p.rows.map (fun r => projectRow p.cols r st.fieldNames)⟩ := by
        rw [PandasDataFrame.loc, if_pos hsub]
      refine ⟨[PreCall.createDF st.fieldNames (some st.fieldNames)],
        p.rows.map (fun r => projectRow p.cols r st.fieldNames), ?_⟩
      simp [saveDataframeStep, BaseTable.schema, hsch, hne, hdt, hsel,
        createDataFrameWithSchema]

/-- A validated non-null write mode is overwrite or append. -/
lemma write_mode_valid_of_ok (t : BaseTable) (wm : String)
    (hwm : t.write_mode = some wm)
    (hok : t.validate_write_mode = Except.ok ()) :
    wm = "overwrite" ∨ wm = "append" := by
  simp only [BaseTable.validate_write_mode, hwm] at hok
  by_cases hc : VALID_WRITE_MODES.contains wm
  · rw [VALID_WRITE_MODES] at hc
    simpa using hc
  · rw [if_neg hc] at hok
    exact absurd hok (by simp)

/-- A validated dataframe type is spark or pandas. -/
lemma dataframe_type_valid_of_ok (t : BaseTable)
    (hok : t.validate_dataframe_type = Except.ok ()) :
    t.dataframe_type = "spark" ∨ t.dataframe_type = "pandas" := by
  rw [BaseTable.validate_dataframe_type] at hok
  by_cases hc : VALID_DATAFRAME_TYPES.contains t.dataframe_type
  · rw [VALID_DATAFRAME_TYPES] at hc
    simpa using hc
  · rw [if_neg hc] at hok
    exact absurd hok (by simp)

/-! ## Claim theorems -/

/-- C1: for a successfully constructed configuration with a non-null write
mode and a supplied (non-empty) schema, saving a dataframe of the configured
representation whose columns include every schema field name writes a
dataframe whose columns are exactly the schema field names, in schema order -
any other column is dropped - on both the Spark path (column selection) and
the pandas path (select matching columns, then build a Spark dataframe with
the decoded schema). -/
theorem C1_save_schema_projection (t : BaseTable) (tr : List String)
    (st : StructType) (data : PyDataFrame)
    (hok : t.post_init = Except.ok tr)
    (hwm : t.write_mode.isSome = true)
    (hsch : t.json_schema = some st)
    (hne : st.fields.isEmpty = false)
    (hty : typeMatches t data = true)
    (hsub : st.fieldNames.all (fun c => data.cols.contains c) = true) :
    ∃ r : SaveResult, BaseTableDataset.save t data = Except.ok r ∧
      r.write.data.cols = st.fieldNames := by
  obtain ⟨hvnil, -⟩ := post_init_ok_elim t tr hok
  obtain ⟨-, -, -, -, hwmok, hdtok⟩ := validators_ok_of_violations_nil t hvnil
  obtain ⟨wm, hwm2⟩ := Option.isSome_iff_exists.mp hwm
  have hval := write_mode_valid_of_ok t wm hwm2 hwmok
  have hdt := dataframe_type_valid_of_ok t hdtok
  obtain ⟨pre, rows2, hstep⟩ :=
    saveDataframeStep_schema t st data hsch hne hdt hty hsub
  obtain ⟨f, w, hf, hfw, hwdata⟩ :=
    lookup_handler_spark t wm ⟨st.fieldNames, rows2⟩ hval
  refine ⟨⟨pre, w⟩, ?_, ?_⟩
  · simp only [BaseTableDataset.save, hwm2, hstep, hf, hfw]
  · rw [hwdata]

/-- Witness for C1: the schema [a, b] applied to dataframes with columns
[a, b, c], on the Spark path and on the pandas path. -/
theorem C1_save_schema_projection_witness :
    (∃ r : SaveResult,
      BaseTableDataset.save tableSparkAB (PyDataFrame.spark sparkABC) =
        Except.ok r ∧ r.write.data.cols = schemaAB.fieldNames) ∧
    (∃ r : SaveResult,
      BaseTableDataset.save tablePandasAB (PyDataFrame.pandas pandasABC) =
        Except.ok r ∧ r.write.data.cols = schemaAB.fieldNames) :=
  ⟨C1_save_schema_projection tableSparkAB
      ["format", "database", "catalog", "table", "write_mode",
       "dataframe_type"] schemaAB (PyDataFrame.spark sparkABC)
      (by decide) (by decide) rfl (by decide) (by decide) (by decide),
   C1_save_schema_projection tablePandasAB
      ["format", "database", "catalog", "table", "write_mode",
       "dataframe_type"] schemaAB (PyDataFrame.pandas pandasABC)
      (by decide) (by decide) rfl (by decide) (by decide) (by decide)⟩

/-- C2: with a null write mode, save fails with the read-only error - raised
before any engine interaction or schema processing, so the error result
carries no engine call - while load succeeds and returns the engine table
contents unmodified, converted to a local dataframe iff the dataframe type
is pandas, with no column projection. -/
theorem C2_read_only_save_load (t : BaseTable) (data : PyDataFrame)
    (contents : SparkDataFrame) (hro : t.write_mode = none) :
    BaseTableDataset.save t data =
      Except.error (SaveError.datasetError DatasetError.readOnly) ∧
    (BaseTableDataset.load t contents).cols = contents.cols ∧
    (BaseTableDataset.load t contents).rows = contents.rows ∧
    ((BaseTableDataset.load t contents).isPandasDF = true ↔
      t.dataframe_type = "pandas") := by
  refine ⟨?_, ?_, ?_, ?_⟩
  · simp only [BaseTableDataset.save, hro]
  · by_cases hp : t.dataframe_type == "pandas" <;>
      simp [BaseTableDataset.load, hp, PyDataFrame.cols]
  · by_cases hp : t.dataframe_type == "pandas" <;>
      simp [BaseTableDataset.load, hp, PyDataFrame.rows]
  · by_cases hp : t.dataframe_type == "pandas" <;>
      simp [BaseTableDataset.load, hp, PyDataFrame.isPandasDF] <;>
      simp_all

/-- Witness for C2: the read-only sample configuration. -/
theorem C2_read_only_save_load_witness :
    BaseTableDataset.save tableReadOnly (PyDataFrame.spark sparkABC) =
      Except.error (SaveError.datasetError DatasetError.readOnly) ∧
    (BaseTableDataset.load tableReadOnly sparkABC).cols = sparkABC.cols :=
  ⟨(C2_read_only_save_load tableReadOnly (PyDataFrame.spark sparkABC)
      sparkABC rfl).1,
   (C2_read_only_save_load tableReadOnly (PyDataFrame.spark sparkABC)
      sparkABC rfl).2.1⟩

/-- C7: with pandas dataframes and no schema, save makes exactly one
create-dataframe engine call - from the local dataframe, with no column
filtering and no explicit schema - and then the overwrite handler writes in
overwrite mode at the configured format with the schema-overwrite option
enabled (the constructor's default write mode being overwrite). -/
theorem C7_pandas_no_schema_overwrite (t : BaseTable) (tr : List String)
    (p : PandasDataFrame)
    (hok : t.post_init = Except.ok tr)
    (hwm : t.write_mode = some "overwrite")
    (hdt : t.dataframe_type = "pandas")
    (hsch : t.json_schema = none) :
    BaseTableDataset.save t (PyDataFrame.pandas p) =
      Except.ok ⟨[PreCall.createDF p.cols none],
        ⟨t.format, "overwrite", [("overwriteSchema", "true")],
         (t.full_table_location).getD "", createDataFrameNoSchema p⟩⟩ := by
  simp [BaseTableDataset.save, hwm, saveDataframeStep, BaseTable.schema,
    hsch, saveNoSchemaStep, hdt, lookupSaveMethod,
    BaseTableDataset.save_overwrite]

/-- Witness for C7: the pandas no-schema sample configuration. -/
theorem C7_pandas_no_schema_overwrite_witness :
    BaseTableDataset.save tablePandasNoSchema (PyDataFrame.pandas pandasABC) =
      Except.ok ⟨[PreCall.createDF pandasABC.cols none],
        ⟨"delta", "overwrite", [("overwriteSchema", "true")],
         "`main`.`default`.`features`", createDataFrameNoSchema pandasABC⟩⟩ :=
  C7_pandas_no_schema_overwrite tablePandasNoSchema
    ["format", "database", "catalog", "table", "write_mode",
     "dataframe_type"] pandasABC (by decide) rfl rfl rfl

/-- C8: save dispatches to the handler named by the write mode, and for a
configuration that passed construction-time validation with a non-null write
mode a handler always exists, so the unsupported-write-mode error branch is
unreachable: save never returns that error. -/
theorem C8_write_mode_dispatch (t : BaseTable) (tr : List String)
    (wm : String)
    (hok : t.post_init = Except.ok tr) (hwm : t.write_mode = some wm) :
    (lookupSaveMethod t wm).isSome = true ∧
    ∀ (data : PyDataFrame) (m : String),
      BaseTableDataset.save t data ≠
        Except.error (SaveError.datasetError
          (DatasetError.unsupportedWriteMode m)) := by
  obtain ⟨hvnil, -⟩ := post_init_ok_elim t tr hok
  obtain ⟨-, -, -, -, hwmok, -⟩ := validators_ok_of_violations_nil t hvnil
  have hval := write_mode_valid_of_ok t wm hwm hwmok
  have hlk : (lookupSaveMethod t wm).isSome = true := by
    rcases hval with rfl | rfl <;> rfl
  refine ⟨hlk, ?_⟩
  intro data m hcontra
  obtain ⟨f, hf⟩ := Option.isSome_iff_exists.mp hlk
  cases hstep : saveDataframeStep t data with
  | error e =>
    have he := saveDataframeStep_error_eq t data e hstep
    subst he
    simp only [BaseTableDataset.save, hwm, hstep] at hcontra
    simp at hcontra
  | ok pr =>
    obtain ⟨pre, df⟩ := pr
    simp only [BaseTableDataset.save, hwm, hstep, hf] at hcontra
    cases hfd : f df with
    | error e =>
      have he := save_handler_error_eq t wm f hf df e hfd
      subst he
      rw [hfd] at hcontra
      simp at hcontra
    | ok w =>
      rw [hfd] at hcontra
      simp at hcontra

/-- Witness for C8: the sample configuration with write mode overwrite. -/
theorem C8_write_mode_dispatch_witness :
    (lookupSaveMethod sampleTable "overwrite").isSome = true ∧
    BaseTableDataset.save sampleTable (PyDataFrame.spark sparkABC) ≠
      Except.error (SaveError.datasetError
        (DatasetError.unsupportedWriteMode "overwrite")) :=
  ⟨(C8_write_mode_dispatch sampleTable
      ["format", "database", "catalog", "table", "write_mode",
       "dataframe_type"] "overwrite" (by decide) rfl).1,
   (C8_write_mode_dispatch sampleTable
      ["format", "database", "catalog", "table", "write_mode",
       "dataframe_type"] "overwrite" (by decide) rfl).2
     (PyDataFrame.spark sparkABC) "overwrite"⟩

/-- C3: the existence check is a total boolean function (it never raises):
whatever the outcome of the catalog switch - in particular when it fails
with a parse or analysis error, which is swallowed after logging - the
result is determined by the table-listing check alone: a failing listing
query yields false, and a successful one yields true iff some listed table
name equals the configured table. -/
theorem C3_exists_never_raises (t : BaseTable) (spark : SparkSession) :
    (∀ rows, spark.showTables t.database = Except.ok rows →
      BaseTableDataset.tableExists t spark =
        decide (0 < (rows.filter (fun n => n == t.table)).length)) ∧
    (∀ e, spark.showTables t.database = Except.error e →
      BaseTableDataset.tableExists t spark = false) ∧
    (∀ s2 : SparkSession, s2.showTables = spark.showTables →
      BaseTableDataset.tableExists t s2 =
        BaseTableDataset.tableExists t spark) := by
  refine ⟨?_, ?_, ?_⟩
  · intro rows hr
    simp only [BaseTableDataset.tableExists, hr]
  · intro e hr
    simp only [BaseTableDataset.tableExists, hr]
  · intro s2 hs
    simp only [BaseTableDataset.tableExists, hs]

/-- Witness for C3: a session whose catalog switch fails still finds the
sample table, and a session whose database listing fails yields false. -/
theorem C3_exists_never_raises_witness :
    BaseTableDataset.tableExists sampleTable sessionCatalogFails = true ∧
    BaseTableDataset.tableExists sampleTable sessionDbMissing = false := by
  constructor
  · have h := (C3_exists_never_raises sampleTable sessionCatalogFails).1
      ["features", "other"] rfl
    rw [h]
    decide
  · exact (C3_exists_never_raises sampleTable sessionDbMissing).2.1
      SparkException.analysisException rfl

/-- C5: construction-time validation has first-violation semantics: the
constructed value fails precisely with the error of the earliest-declared
violated field (the head of the violation list taken in field-declaration
order, with no aggregation of later violations), and succeeds - running
every declared per-field validator exactly once, in declaration order -
precisely when no field is violated. -/
theorem C5_first_violation (t : BaseTable) :
    (∀ e, t.post_init = Except.error e ↔
      (fieldViolations t).head? = some e) ∧
    (fieldViolations t = [] ↔ t.post_init = Except.ok
      ["format", "database", "catalog", "table", "write_mode",
       "dataframe_type"]) := by
  refine ⟨fun e => post_init_error_iff t e, ?_, ?_⟩
  · exact post_init_ok_of_violations_nil t
  · intro h
    exact (post_init_ok_elim t _ h).1

/-- Witness for C5: the valid sample succeeds with the full ordered trace;
a sample invalid in both format (declared first) and table name fails with
the format error. -/
theorem C5_first_violation_witness :
    sampleTable.post_init = Except.ok
      ["format", "database", "catalog", "table", "write_mode",
       "dataframe_type"] ∧
    tableDoublyBad.post_init =
      Except.error (DatasetError.invalidFormat "orc") :=
  ⟨(C5_first_violation sampleTable).2.mp (by decide),
   ((C5_first_violation tableDoublyBad).1
      (DatasetError.invalidFormat "orc")).mpr (by decide)⟩

/-- C6: for a successfully constructed configuration the full table location
is total and non-null: with a non-empty catalog c it is the backtick-quoted
dot-joined catalog-database-table triple, and with no catalog the quoted
database-table pair. -/
theorem C6_full_table_location (t : BaseTable) (tr : List String)
    (hok : t.post_init = Except.ok tr) :
    (∀ c, t.catalog = some c → ¬(c = "") →
      t.full_table_location =
        some ("`" ++ c ++ "`.`" ++ t.database ++ "`.`" ++ t.table ++ "`")) ∧
    (t.catalog = none →
      t.full_table_location =
        some ("`" ++ t.database ++ "`.`" ++ t.table ++ "`")) ∧
    ¬(t.full_table_location = none) := by
  obtain ⟨hvnil, -⟩ := post_init_ok_elim t tr hok
  obtain ⟨-, hdbok, -, htbok, -, -⟩ := validators_ok_of_violations_nil t hvnil
  have hdb : ¬(t.database = "") :=
    namingFullmatch_ne_empty t.database ((validate_database_iff t).mp hdbok)
  have htb : ¬(t.table = "") :=
    namingFullmatch_ne_empty t.table ((validate_table_iff t).mp htbok)
  have hdbb : (t.database == "") = false := by simpa using hdb
  have htbb : (t.table == "") = false := by simpa using htb
  refine ⟨?_, ?_, ?_⟩
  · intro c hc hcne
    have hcb : (c == "") = false := by simpa using hcne
    simp [BaseTable.full_table_location, hc, pyTruthy, hcb, hdbb, htbb]
  · intro hc
    simp [BaseTable.full_table_location, hc, pyTruthy, hdbb, htbb]
  · cases hc : t.catalog with
    | none => simp [BaseTable.full_table_location, hc, pyTruthy, hdbb, htbb]
    | some c =>
      by_cases hce : (c == "") = true <;>
        simp [BaseTable.full_table_location, hc, pyTruthy, hce, hdbb, htbb]

/-- Witness for C6: the sample with catalog main and the sample with no
catalog. -/
theorem C6_full_table_location_witness :
    sampleTable.full_table_location = some "`main`.`default`.`features`" ∧
    (tableNamed "t").full_table_location = some "`default`.`t`" := by
  constructor
  · have h := (C6_full_table_location sampleTable
      ["format", "database", "catalog", "table", "write_mode",
       "dataframe_type"] (by decide)).1 "main" rfl (by decide)
    simpa using h
  · have h := (C6_full_table_location (tableNamed "t")
      ["format", "database", "catalog", "table", "write_mode",
       "dataframe_type"] (by decide)).2.1 rfl
    simpa using h

/-- If every declared validator passes, the violation list is empty. -/
lemma violations_nil_of_validators_ok (t : BaseTable)
    (h1 : t.validate_format = Except.ok ())
    (h2 : t.validate_database = Except.ok ())
    (h3 : t.validate_catalog = Except.ok ())
    (h4 : t.validate_table = Except.ok ())
    (h5 : t.validate_write_mode = Except.ok ())
    (h6 : t.validate_dataframe_type = Except.ok ()) :
    fieldViolations t = [] := by
  simp [fieldViolations, violationsOver, dataclassFieldKeys, lookupValidator,
    h1, h2, h3, h4, h5, h6]

/-- Construction outcome for the sample configuration as a function of the
table name: everything else being valid, it succeeds iff the name fullmatches
the naming regex, and otherwise fails with the table naming error. -/
lemma tableNamed_post_init (s : String) :
    (tableNamed s).post_init =
      (if namingFullmatch s then
        Except.ok
          ["format", "database", "catalog", "table", "write_mode",
           "dataframe_type"]
      else Except.error DatasetError.invalidTableName) := by
  by_cases h : namingFullmatch s = true
  · rw [if_pos h]
    apply post_init_ok_of_violations_nil
    exact violations_nil_of_validators_ok (tableNamed s) rfl rfl rfl
      (by rw [BaseTable.validate_table]; rw [if_pos]; exact h) rfl rfl
  · rw [if_neg h]
    rw [post_init_error_iff]
    have ht : (tableNamed s).validate_table =
        Except.error DatasetError.invalidTableName := by
      rw [BaseTable.validate_table, if_neg]
      exact h
    have hf1 : (tableNamed s).validate_format = Except.ok () := rfl
    have hf2 : (tableNamed s).validate_database = Except.ok () := rfl
    have hf3 : (tableNamed s).validate_catalog = Except.ok () := rfl
    have hf5 : (tableNamed s).validate_write_mode = Except.ok () := rfl
    have hf6 : (tableNamed s).validate_dataframe_type = Except.ok () := rfl
    have hfv : fieldViolations (tableNamed s) =
        [DatasetError.invalidTableName] := by
      simp [fieldViolations, violationsOver, dataclassFieldKeys,
        lookupValidator, List.filterMap_cons, ht, hf1, hf2, hf3, hf5, hf6]
    rw [hfv]
    rfl

/-- Construction outcome for the sample configuration as a function of the
database name: everything else being valid, it succeeds iff the name
fullmatches the naming regex, and otherwise fails with the database naming
error. -/
lemma databaseNamed_post_init (s : String) :
    (databaseNamed s).post_init =
      (if namingFullmatch s then
        Except.ok
          ["format", "database", "catalog", "table", "write_mode",
           "dataframe_type"]
      else Except.error DatasetError.invalidDatabaseName) := by
  by_cases h : namingFullmatch s = true
  · rw [if_pos h]
    apply post_init_ok_of_violations_nil
    exact violations_nil_of_validators_ok (databaseNamed s) rfl
      (by rw [BaseTable.validate_database]; rw [if_pos]; exact h) rfl rfl
      rfl rfl
  · rw [if_neg h]
    rw [post_init_error_iff]
    have hd : (databaseNamed s).validate_database =
        Except.error DatasetError.invalidDatabaseName := by
      rw [BaseTable.validate_database, if_neg]
      exact h
    have hf1 : (databaseNamed s).validate_format = Except.ok () := rfl
    have hf3 : (databaseNamed s).validate_catalog = Except.ok () := rfl
    have hf4 : (databaseNamed s).validate_table = Except.ok () := rfl
    have hf5 : (databaseNamed s).validate_write_mode = Except.ok () := rfl
    have hf6 : (databaseNamed s).validate_dataframe_type = Except.ok () := rfl
    have hfv : fieldViolations (databaseNamed s) =
        [DatasetError.invalidDatabaseName] := by
      simp [fieldViolations, violationsOver, dataclassFieldKeys,
        lookupValidator, List.filterMap_cons, hd, hf1, hf3, hf4, hf5, hf6]
    rw [hfv]
    rfl

/-- C4 counterexample: the name "-a" is a non-empty single token of word
characters and hyphens, yet construction rejects it in the table position
with the table naming error and in the database position with the database
naming error - the regex word-boundary anchors refuse a leading (or
trailing) hyphen, so not every such token is accepted. -/
theorem C4_hyphen_counterexample :
    (tableNamed "-a").post_init =
      Except.error DatasetError.invalidTableName ∧
    (databaseNamed "-a").post_init =
      Except.error DatasetError.invalidDatabaseName ∧
    ¬("-a".toList = []) ∧ "-a".toList.all namingClassChar = true :=
  ⟨by decide, by decide, by decide, by decide⟩

/-- C4 amended: with the other fields valid, construction succeeds - in the
table position and in the database position alike - iff the name is a
non-empty string of word characters and hyphens whose first and last
characters are word characters (so names beginning or ending with a hyphen
are rejected), and it fails in either position for every name containing a
dot or a space and for the empty string. -/
theorem C4_naming_characterization (s : String) :
    ((tableNamed s).post_init =
        Except.ok
          ["format", "database", "catalog", "table", "write_mode",
           "dataframe_type"] ↔
      (¬(s.toList = []) ∧ s.toList.all namingClassChar = true ∧
       pyWordChar (s.toList.headD ' ') = true ∧
       pyWordChar (s.toList.getLastD ' ') = true)) ∧
    ((databaseNamed s).post_init =
        Except.ok
          ["format", "database", "catalog", "table", "write_mode",
           "dataframe_type"] ↔
      (¬(s.toList = []) ∧ s.toList.all namingClassChar = true ∧
       pyWordChar (s.toList.headD ' ') = true ∧
       pyWordChar (s.toList.getLastD ' ') = true)) ∧
    (('.' ∈ s.toList ∨ ' ' ∈ s.toList ∨ s = "") →
      (∃ e, (tableNamed s).post_init = Except.error e) ∧
      (∃ e, (databaseNamed s).post_init = Except.error e)) := by
  have hok : ∀ h : namingFullmatch s = true,
      (¬(s.toList = []) ∧ s.toList.all namingClassChar = true ∧
       pyWordChar (s.toList.headD ' ') = true ∧
       pyWordChar (s.toList.getLastD ' ') = true) :=
    fun h => (namingFullmatch_iff s).mp h
  refine ⟨?_, ?_, ?_⟩
  · rw [tableNamed_post_init]
    by_cases h : namingFullmatch s = true
    · rw [if_pos h]
      exact iff_of_true rfl (hok h)
    · rw [if_neg h]
      constructor
      · intro hcon
        exact absurd hcon (by simp)
      · intro hrhs
        exact absurd ((namingFullmatch_iff s).mpr hrhs) h
  · rw [databaseNamed_post_init]
    by_cases h : namingFullmatch s = true
    · rw [if_pos h]
      exact iff_of_true rfl (hok h)
    · rw [if_neg h]
      constructor
      · intro hcon
        exact absurd hcon (by simp)
      · intro hrhs
        exact absurd ((namingFullmatch_iff s).mpr hrhs) h
  · intro hcase
    have hnm : ¬(namingFullmatch s = true) := by
      intro hm
      obtain ⟨hne, hall, -, -⟩ := (namingFullmatch_iff s).mp hm
      rcases hcase with hd | hsp | hemp
      · exact absurd (List.all_eq_true.mp hall _ hd) (by decide)
      · exact absurd (List.all_eq_true.mp hall _ hsp) (by decide)
      · rw [hemp] at hne
        exact hne rfl
    constructor
    · refine ⟨DatasetError.invalidTableName, ?_⟩
      rw [tableNamed_post_init, if_neg hnm]
    · refine ⟨DatasetError.invalidDatabaseName, ?_⟩
      rw [databaseNamed_post_init, if_neg hnm]

/-- Witness for C4 amended: a hyphenated interior name is accepted in both
the table and the database position; a dotted name is rejected in both. -/
theorem C4_naming_characterization_witness :
    (tableNamed "a-b").post_init =
      Except.ok
        ["format", "database", "catalog", "table", "write_mode",
         "dataframe_type"] ∧
    (databaseNamed "a-b").post_init =
      Except.ok
        ["format", "database", "catalog", "table", "write_mode",
         "dataframe_type"] ∧
    (∃ e, (tableNamed "a.b").post_init = Except.error e) ∧
    (∃ e, (databaseNamed "a.b").post_init = Except.error e) :=
  ⟨(C4_naming_characterization "a-b").1.mpr
     ⟨by decide, by decide, by decide, by decide⟩,
   (C4_naming_characterization "a-b").2.1.mpr
     ⟨by decide, by decide, by decide, by decide⟩,
   ((C4_naming_characterization "a.b").2.2 (Or.inl (by decide))).1,
   ((C4_naming_characterization "a.b").2.2 (Or.inl (by decide))).2⟩

/-- C9: construction succeeds only if a non-null write mode is overwrite or
append; any other non-null value (upsert included) fails construction, and
when the earlier-declared fields are valid the failure is exactly the
invalid-write-mode error.  The base entity declares no primary-key field,
so no primary key can make upsert valid here. -/
theorem C9_write_mode_validation (t : BaseTable) (wm : String)
    (hwm : t.write_mode = some wm) :
    (∀ tr, t.post_init = Except.ok tr →
      wm = "overwrite" ∨ wm = "append") ∧
    (¬(wm = "overwrite") → ¬(wm = "append") →
      (∃ e, t.post_init = Except.error e) ∧
      (t.validate_format = Except.ok () →
       t.validate_database = Except.ok () →
       t.validate_catalog = Except.ok () →
       t.validate_table = Except.ok () →
       t.post_init =
         Except.error (DatasetError.invalidWriteMode wm))) := by
  constructor
  · intro tr hok
    obtain ⟨hvnil, -⟩ := post_init_ok_elim t tr hok
    obtain ⟨-, -, -, -, hwmok, -⟩ := validators_ok_of_violations_nil t hvnil
    exact write_mode_valid_of_ok t wm hwm hwmok
  · intro hno hna
    have hvm : t.validate_write_mode =
        Except.error (DatasetError.invalidWriteMode wm) := by
      simp only [BaseTable.validate_write_mode, hwm]
      rw [if_neg]
      intro hc
      rw [VALID_WRITE_MODES] at hc
      rcases (by simpa using hc : wm = "overwrite" ∨ wm = "append") with
        rfl | rfl
      · exact hno rfl
      · exact hna rfl
    constructor
    · have hne : ¬(fieldViolations t = []) := by
        intro hnil
        have hok := (validators_ok_of_violations_nil t hnil).2.2.2.2.1
        rw [hvm] at hok
        simp at hok
      obtain ⟨e, he⟩ : ∃ e, (fieldViolations t).head? = some e := by
        cases hfv : fieldViolations t with
        | nil => exact absurd hfv hne
        | cons a l => exact ⟨a, rfl⟩
      exact ⟨e, (post_init_error_iff t e).mpr he⟩
    · intro h1 h2 h3 h4
      rw [post_init_error_iff]
      simp [fieldViolations, violationsOver, dataclassFieldKeys,
        lookupValidator, h1, h2, h3, h4, hvm]

/-- Witness for C9: the upsert configuration fails construction with the
invalid-write-mode error. -/
theorem C9_write_mode_validation_witness :
    (∃ e, tableUpsert.post_init = Except.error e) ∧
    tableUpsert.post_init =
      Except.error (DatasetError.invalidWriteMode "upsert") :=
  ⟨((C9_write_mode_validation tableUpsert "upsert" rfl).2 (by decide)
      (by decide)).1,
   ((C9_write_mode_validation tableUpsert "upsert" rfl).2 (by decide)
      (by decide)).2 (by decide) (by decide) (by decide) (by decide)⟩

/-! ## Python dict semantics for the describe output -/

lemma find?_mapReplace {V : Type} (d : List (String × V)) (k : String) (v : V)
    (h : d.any (fun p => p.1 == k) = true) :
    (d.map (fun p => if p.1 == k then (k, v) else p)).find?
      (fun p => p.1 == k) = some (k, v) := by
  induction d with
  | nil => simp at h
  | cons p rest ih =>
    rw [List.map_cons]
    by_cases hp : (p.1 == k) = true
    · rw [if_pos hp]
      exact List.find?_cons_of_pos (p := fun q : String × V => q.1 == k) _ (by simp)
    · have hrest : rest.any (fun q => q.1 == k) = true := by
        rcases List.any_eq_true.mp h with ⟨q, hq, hqk⟩
        rcases List.mem_cons.mp hq with rfl | hq2
        · exact absurd hqk hp
        · exact List.any_eq_true.mpr ⟨q, hq2, hqk⟩
      rw [if_neg hp]
      rw [List.find?_cons_of_neg (p := fun q : String × V => q.1 == k) _ hp]
      exact ih hrest

lemma find?_mapReplace_ne {V : Type} (d : List (String × V)) (k k2 : String)
    (v : V) (hne : ¬(k2 = k)) :
    (d.map (fun p => if p.1 == k then (k, v) else p)).find?
        (fun p => p.1 == k2) =
      d.find? (fun p => p.1 == k2) := by
  have hkk2 : ¬((k == k2) = true) := by
    intro hh
    exact hne (eq_of_beq hh).symm
  induction d with
  | nil => rfl
  | cons p rest ih =>
    rw [List.map_cons]
    by_cases hp : (p.1 == k) = true
    · have hp1 : p.1 = k := eq_of_beq hp
      have hpk2 : ¬((p.1 == k2) = true) := by
        rw [hp1]
        exact hkk2
      rw [if_pos hp]
      rw [List.find?_cons_of_neg (p := fun q : String × V => q.1 == k2) _ hkk2]
      rw [List.find?_cons_of_neg (p := fun q : String × V => q.1 == k2) _ hpk2]
      exact ih
    · rw [if_neg hp]
      by_cases hq : (p.1 == k2) = true
      · rw [List.find?_cons_of_pos (p := fun q : String × V => q.1 == k2) _ hq]
        rw [List.find?_cons_of_pos (p := fun q : String × V => q.1 == k2) _ hq]
      · rw [List.find?_cons_of_neg (p := fun q : String × V => q.1 == k2) _ hq]
        rw [List.find?_cons_of_neg (p := fun q : String × V => q.1 == k2) _ hq]
        exact ih

lemma dictGet_insert_self {V : Type} (d : List (String × V)) (k : String)
    (v : V) : dictGet (dictInsert d k v) k = some v := by
  rw [dictInsert]
  by_cases h : d.any (fun p => p.1 == k) = true
  · rw [if_pos h, dictGet, find?_mapReplace d k v h]
    rfl
  · rw [if_neg h, dictGet]
    have hnone : d.find? (fun p => p.1 == k) = none := by
      rw [List.find?_eq_none]
      intro p hp hpk
      exact h (List.any_eq_true.mpr ⟨p, hp, hpk⟩)
    have hfind : List.find? (fun p => p.1 == k) [(k, v)] = some (k, v) :=
      List.find?_cons_of_pos (p := fun q : String × V => q.1 == k) _ (by simp)
    rw [List.find?_append, hnone]
    simp [hfind]

lemma dictGet_insert_ne {V : Type} (d : List (String × V)) (k k2 : String)
    (v : V) (hne : ¬(k2 = k)) :
    dictGet (dictInsert d k v) k2 = dictGet d k2 := by
  rw [dictInsert]
  by_cases h : d.any (fun p => p.1 == k) = true
  · rw [if_pos h, dictGet, find?_mapReplace_ne d k k2 v hne, dictGet]
  · have hkk2 : ¬((k == k2) = true) := by
      intro hh
      exact hne (eq_of_beq hh).symm
    have hlast : List.find? (fun p => p.1 == k2) [(k, v)] = none := by
      rw [List.find?_cons_of_neg (p := fun q : String × V => q.1 == k2) _ hkk2]
      rfl
    rw [if_neg h, dictGet, List.find?_append, hlast, dictGet]
    cases List.find? (fun p => p.1 == k2) d <;> rfl

lemma dictGet_update_notmem {V : Type} (base updates : List (String × V))
    (k : String) (h : ∀ p ∈ updates, ¬(p.1 = k)) :
    dictGet (dictUpdate base updates) k = dictGet base k := by
  induction updates generalizing base with
  | nil => rfl
  | cons u rest ih =>
    show dictGet (dictUpdate (dictInsert base u.1 u.2) rest) k = dictGet base k
    rw [ih _ (fun p hp => h p (List.mem_cons_of_mem _ hp))]
    exact dictGet_insert_ne base u.1 k u.2
      (fun hh => h u (List.mem_cons_self _ _) hh.symm)

lemma dictGet_update_mem {V : Type} (base updates : List (String × V))
    (k : String) (v : V) (hnd : (updates.map Prod.fst).Nodup)
    (hmem : (k, v) ∈ updates) :
    dictGet (dictUpdate base updates) k = some v := by
  induction updates generalizing base with
  | nil => cases hmem
  | cons u rest ih =>
    rw [List.map_cons, List.nodup_cons] at hnd
    show dictGet (dictUpdate (dictInsert base u.1 u.2) rest) k = some v
    rcases List.mem_cons.mp hmem with heq | hmem2
    · have hk : ∀ p ∈ rest, ¬(p.1 = k) := by
        intro p hp hpk
        apply hnd.1
        have hmm : p.1 ∈ List.map Prod.fst rest := List.mem_map_of_mem _ hp
        rw [hpk] at hmm
        rw [← heq]
        exact hmm
      rw [dictGet_update_notmem _ _ _ hk, ← heq]
      exact dictGet_insert_self base k v
    · exact ih _ hnd.2 hmem2

/-- C10: in the describe output the opaque configuration bag is merged
last, so a bag key equal to one of the fixed output keys shadows the
descriptor-derived value; when the bag shares no key with the fixed set,
every fixed key maps exactly to the corresponding descriptor field. -/
theorem C10_describe_kwargs_shadowing (t : BaseTable)
    (kwargs : List (String × DescribeValue))
    (hnd : (kwargs.map Prod.fst).Nodup) :
    (∀ k v, (k, v) ∈ kwargs →
      dictGet (BaseTableDataset.describe t kwargs) k = some v) ∧
    ((∀ k, k ∈ kwargs.map Prod.fst →
        ¬(k ∈ (describePairs t).map Prod.fst)) →
      (dictGet (BaseTableDataset.describe t kwargs) "catalog" =
         some (DescribeValue.ofOptStr t.catalog) ∧
       dictGet (BaseTableDataset.describe t kwargs) "database" =
         some (DescribeValue.str t.database) ∧
       dictGet (BaseTableDataset.describe t kwargs) "table" =
         some (DescribeValue.str t.table) ∧
       dictGet (BaseTableDataset.describe t kwargs) "write_mode" =
         some (DescribeValue.ofOptStr t.write_mode) ∧
       dictGet (BaseTableDataset.describe t kwargs) "dataframe_type" =
         some (DescribeValue.str t.dataframe_type) ∧
       dictGet (BaseTableDataset.describe t kwargs) "owner_group" =
         some (DescribeValue.ofOptStr t.owner_group) ∧
       dictGet (BaseTableDataset.describe t kwargs) "partition_columns" =
         some (DescribeValue.ofOptList t.partition_columns))) := by
  constructor
  · intro k v hm
    exact dictGet_update_mem _ _ _ _ hnd hm
  · intro hdisj
    have hfix : ∀ kk : String, kk ∈ (describePairs t).map Prod.fst →
        dictGet (BaseTableDataset.describe t kwargs) kk =
          dictGet (describePairs t) kk := by
      intro kk hkk
      apply dictGet_update_notmem
      intro p hp hpk
      exact hdisj p.1 (List.mem_map_of_mem _ hp) (by rw [hpk]; exact hkk)
    refine ⟨?_, ?_, ?_, ?_, ?_, ?_, ?_⟩ <;>
      rw [hfix _ (by simp [describePairs])] <;> rfl

/-- Witness for C10: a bag entry shadowing the write mode, and a disjoint
bag leaving the table key untouched. -/
theorem C10_describe_kwargs_shadowing_witness :
    dictGet (BaseTableDataset.describe sampleTable kwargsSample)
      "write_mode" = some (DescribeValue.str "shadowed") ∧
    dictGet (BaseTableDataset.describe sampleTable
      [("version", DescribeValue.str "7")]) "table" =
        some (DescribeValue.str "features") :=
  ⟨(C10_describe_kwargs_shadowing sampleTable kwargsSample (by decide)).1
      "write_mode" (DescribeValue.str "shadowed") (by decide),
   (((C10_describe_kwargs_shadowing sampleTable
        [("version", DescribeValue.str "7")] (by decide)).2
      (by
        intro k hk
        simp only [List.map_cons, List.map_nil, List.mem_singleton] at hk
        subst hk
        decide)).2.2.1)⟩
